import Mathlib

/-!
Shallow embedding of the TDG frontend HTTP client layer (`src/api.ts`,
`src/batchApi.ts`).

JavaScript runtime values that flow through the client (bodies, parsed JSON,
the `data` / `error` fields of an `ApiResponse`) are modelled by `JsValue`,
which includes `undefined` and `null` so that JS truthiness and the
`!== undefined && !== null` checks of the source can be mirrored exactly.
The network is modelled as an explicit `FetchOutcome` argument: either the
`fetch` promise rejects with a thrown value, or a response (status, status
text, declared content type, and the results of `json()` / `text()`) is
obtained.  `apiRequest` is split into a pure request-building part
(`buildRequest`, mirroring lines 36-75 of `src/api.ts`) and a response
normalization part (`handleResponse`, mirroring lines 77-107): the `catch`
clause of the source becomes the `catchClause` branch of the model, so the
modelled function is total exactly because the source function never lets an
exception propagate.
-/

/-- A JavaScript runtime value, as seen by the client code: `undefined` and
`null` are distinct values, and JSON-decoded bodies are built from booleans,
numbers, strings, arrays and objects. -/
inductive JsValue where
  | undefined : JsValue
  | null : JsValue
  | bool (b : Bool) : JsValue
  | num (n : Int) : JsValue
  | str (s : String) : JsValue
  | arr (elems : List JsValue) : JsValue
  | obj (fields : List (String × JsValue)) : JsValue
deriving Repr

/-- JavaScript truthiness of a value (`if (v)`): `undefined`, `null`,
`false`, `0` and `""` are falsy, everything else is truthy. -/
def truthy : JsValue → Bool
  | .undefined => false
  | .null => false
  | .bool b => b
  | .num n => n != 0
  | .str s => s != ""
  | .arr _ => true
  | .obj _ => true

/-- Whether a field carries a value, in the loose-equality sense of
JavaScript's `x != null`: both `undefined` and `null` count as absent. -/
def present : JsValue → Bool
  | .undefined => false
  | .null => false
  | _ => true

/-- JavaScript's short-circuiting `a || b` on values: `a` when truthy,
otherwise `b`. -/
def jsOr (a b : JsValue) : JsValue :=
  if truthy a then a else b

/-- Optional member access `v?.k` followed by plain property lookup: objects
yield the named field (or `undefined`), and every non-object value — including
`null` and `undefined` short-circuited by `?.` — yields `undefined`. -/
def optMember (v : JsValue) (k : String) : JsValue :=
  match v with
  | .obj fields =>
    match fields.lookup k with
    | some w => w
    | none => .undefined
  | _ => .undefined

/-- JavaScript string coercion, as applied by `URLSearchParams.append` to a
parameter value.  (Array coercion joins coerced elements; since no caller of
this client passes an array-valued parameter, it is modelled shallowly.) -/
def jsToString (v : JsValue) : String :=
  match v with
  | .undefined => "undefined"
  | .null => "null"
  | .bool true => "true"
  | .bool false => "false"
  | .num n => toString n
  | .str s => s
  | .arr _ => ""
  | .obj _ => "[object Object]"

/-- Hexadecimal digit used by percent-encoding. -/
def hexChar (n : Nat) : Char :=
  "0123456789ABCDEF".data.getD n '0'

/-- UTF-8 encoding of one character, as a list of byte values. -/
def utf8Bytes (c : Char) : List Nat :=
  let n := c.toNat
  if n < 128 then [n]
  else if n < 2048 then [192 + n / 64, 128 + n % 64]
  else if n < 65536 then [224 + n / 4096, 128 + (n / 64) % 64, 128 + n % 64]
  else [240 + n / 262144, 128 + (n / 4096) % 64, 128 + (n / 64) % 64, 128 + n % 64]

/-- Bytes the `application/x-www-form-urlencoded` serializer leaves as-is:
ASCII alphanumerics and `*` `-` `.` `_`. -/
def isSafeByte (n : Nat) : Bool :=
  (65 ≤ n && n ≤ 90) || (97 ≤ n && n ≤ 122) || (48 ≤ n && n ≤ 57) ||
    n == 42 || n == 45 || n == 46 || n == 95

/-- Encode one byte for a query string: safe bytes kept, space becomes `+`,
everything else percent-escaped. -/
def encodeByte (n : Nat) : String :=
  if isSafeByte n then String.singleton (Char.ofNat n)
  else if n == 32 then "+"
  else "%" ++ String.singleton (hexChar (n / 16)) ++ String.singleton (hexChar (n % 16))

/-- `application/x-www-form-urlencoded` encoding of a string, the encoding
`URLSearchParams.toString` applies to each key and value. -/
def formUrlEncode (s : String) : String :=
  String.join ((s.data.map utf8Bytes).flatten.map encodeByte)

/-- Serialization of appended query pairs, as `URLSearchParams.toString`:
`k=v` items joined with `&`, keys and values form-url-encoded. -/
def serializeQuery (pairs : List (String × String)) : String :=
  String.intercalate "&" (pairs.map (fun p => formUrlEncode p.1 ++ "=" ++ formUrlEncode p.2))

/-- The filter-and-append step of `apiRequest`'s query building
(src/api.ts lines 39-43): entries whose value is strictly unequal to both
`undefined` and `null` are appended (string-coerced), the rest are skipped. -/
def keepParam (p : String × JsValue) : Option (String × String) :=
  match p.2 with
  | .undefined => none
  | .null => none
  | v => some (p.1, jsToString v)

/-- Whether a parameter entry is skipped by the source's
`value !== undefined && value !== null` check. -/
def nullishParam (p : String × JsValue) : Bool :=
  match p.2 with
  | .undefined => true
  | .null => true
  | _ => false

/-- URL construction of `apiRequest` (src/api.ts lines 36-48): base plus
endpoint, then `?` and the serialized query when the serialized query string
is non-empty (truthy). -/
def buildUrl (base endpoint : String) (params : Option (List (String × JsValue))) : String :=
  let url := base ++ endpoint
  match params with
  | none => url
  | some ps =>
    let queryString := serializeQuery (ps.filterMap keepParam)
    if queryString == "" then url else url ++ "?" ++ queryString

/-- The default base URL of the client (src/api.ts line 6). -/
def defaultBaseUrl : String := "http://localhost:8080/tdg/api"

/-- Resolution of `API_BASE_URL` from the environment
(`process.env.REACT_APP_API_URL || 'http://localhost:8080/tdg/api'`):
the configured value when set and truthy, else the documented default. -/
def apiBaseUrl (envValue : Option String) : String :=
  match envValue with
  | some s => if s == "" then defaultBaseUrl else s
  | none => defaultBaseUrl

/-- One entry of a `FormData` body: an appended file or an appended string
field. -/
inductive FormVal where
  | file (name : String) : FormVal
  | str (s : String) : FormVal
deriving Repr

/-- The `body` option of a request: either an arbitrary JS value (serialized
as JSON when attached) or a `FormData` object with its appended entries. -/
inductive RequestBody where
  | js (v : JsValue) : RequestBody
  | form (entries : List (String × FormVal)) : RequestBody
deriving Repr

/-- The `body instanceof FormData` test of the source. -/
def RequestBody.isFormData : RequestBody → Bool
  | .form _ => true
  | .js _ => false

/-- JS truthiness of a body value: a `FormData` object is always truthy, a
plain value by `truthy`. -/
def RequestBody.jsTruthy : RequestBody → Bool
  | .form _ => true
  | .js v => truthy v

/-- The `RequestOptions` argument of `apiRequest` (src/api.ts lines 16-21);
`headers = []` and `body/params = none` model the omitted fields. -/
structure RequestOptions where
  method : String
  headers : List (String × String)
  body : Option RequestBody
  params : Option (List (String × JsValue))
deriving Repr

/-- JavaScript object-property assignment `o[k] = v` on a key-ordered record:
an existing key keeps its position and gets the new value, a new key is
appended. -/
def setKey (hs : List (String × String)) (k v : String) : List (String × String) :=
  if hs.any (fun p => p.1 == k) then
    hs.map (fun p => if p.1 == k then (k, v) else p)
  else hs ++ [(k, v)]

/-- The header spread `{ 'Accept': 'application/json', ...headers }` of
src/api.ts lines 51-54: caller headers assigned one by one over the default
record, later entries overriding earlier ones. -/
def spreadHeaders (caller : List (String × String)) : List (String × String) :=
  caller.foldl (fun acc p => setKey acc p.1 p.2) [("Accept", "application/json")]

/-- The condition of src/api.ts line 57: `body && !(body instanceof
FormData)` — a truthy, non-FormData body triggers the JSON Content-Type. -/
def bodyNeedsJsonType (body : Option RequestBody) : Bool :=
  match body with
  | some b => b.jsTruthy && !b.isFormData
  | none => false

/-- Final request headers (src/api.ts lines 50-59): the spread defaults, then
`Content-Type: application/json` assigned when a truthy non-FormData body is
present. -/
def buildHeaders (caller : List (String × String)) (body : Option RequestBody) : List (String × String) :=
  let requestHeaders := spreadHeaders caller
  if bodyNeedsJsonType body then setKey requestHeaders "Content-Type" "application/json"
  else requestHeaders

/-- The body actually attached to the outgoing request: the `FormData` object
unmodified, or the `JSON.stringify` serialization of the value (recorded here
as the value being serialized). -/
inductive AttachedBody where
  | jsonText (v : JsValue) : AttachedBody
  | formBody (entries : List (String × FormVal)) : AttachedBody
deriving Repr

/-- Body attachment of src/api.ts lines 69-75: only a truthy body is
attached; a `FormData` body goes through unmodified, any other body is
JSON-serialized. -/
def attachBody (body : Option RequestBody) : Option AttachedBody :=
  match body with
  | none => none
  | some b =>
    if b.jsTruthy then
      match b with
      | .form es => some (.formBody es)
      | .js v => some (.jsonText v)
    else none

/-- The outgoing request as handed to `fetch`: URL, method, final headers,
`credentials: 'include'`, and the attached body. -/
structure BuiltRequest where
  url : String
  method : String
  headers : List (String × String)
  credentialsInclude : Bool
  body : Option AttachedBody
deriving Repr

/-- Request construction of `apiRequest` before the `try` block
(src/api.ts lines 36-75). -/
def buildRequest (base endpoint : String) (opts : RequestOptions) : BuiltRequest :=
  { url := buildUrl base endpoint opts.params
    method := opts.method
    headers := buildHeaders opts.headers opts.body
    credentialsInclude := true
    body := attachBody opts.body }

/-- Result of the `response.json()` promise: a decoded value, or rejection
with a `SyntaxError` carrying the given message. -/
inductive ParseResult where
  | ok (v : JsValue) : ParseResult
  | raised (message : String) : ParseResult
deriving Repr

/-- A response obtained from `fetch`: status, status text (the reason
phrase), the `content-type` header (`none` models `headers.get` returning
`null`), and the results of `json()` and `text()` on the body. -/
structure HttpResponse where
  status : Nat
  statusText : String
  contentType : Option String
  jsonBody : ParseResult
  textBody : String
deriving Repr

/-- `response.ok`: status in the inclusive range 200-299. -/
def respOk (resp : HttpResponse) : Bool :=
  200 ≤ resp.status && resp.status ≤ 299

/-- Whether the second character list begins with the first. -/
def hasPrefixChars : List Char → List Char → Bool
  | [], _ => true
  | _ :: _, [] => false
  | p :: ps, c :: cs => p == c && hasPrefixChars ps cs

/-- Whether the pattern occurs somewhere in the character list. -/
def occursIn (pat : List Char) : List Char → Bool
  | [] => hasPrefixChars pat []
  | c :: cs => hasPrefixChars pat (c :: cs) || occursIn pat cs

/-- Substring test, as `String.prototype.includes`. -/
def containsSubstr (s pat : String) : Bool :=
  occursIn pat.data s.data

/-- The JSON-detection of src/api.ts lines 82-83:
`contentType && contentType.includes('application/json')`. -/
def isJsonResponse (resp : HttpResponse) : Bool :=
  match resp.contentType with
  | none => false
  | some ct => ct != "" && containsSubstr ct "application/json"

/-- A value thrown inside the `try` block: an `Error` instance with its
`message`, or any other thrown value. -/
inductive Thrown where
  | errObj (message : String) : Thrown
  | other : Thrown
deriving Repr

/-- The error text the catch clause extracts (src/api.ts line 104):
`error instanceof Error ? error.message : 'Network error'`. -/
def networkErrMsg : Thrown → String
  | .errObj m => m
  | .other => "Network error"

/-- Outcome of the `fetch` call: the promise rejects with a thrown value, or
a response is obtained. -/
inductive FetchOutcome where
  | failure (t : Thrown) : FetchOutcome
  | success (resp : HttpResponse) : FetchOutcome
deriving Repr

/-- The `ApiResponse` interface (src/api.ts lines 9-13); a field holds
`JsValue.undefined` when the source leaves it `undefined`. -/
structure ApiResponse where
  data : JsValue
  error : JsValue
  status : Nat
deriving Repr

/-- The catch clause of `apiRequest` (src/api.ts lines 100-107): status 0 and
the extracted error text; no exception escapes. -/
def catchClause (t : Thrown) : ApiResponse :=
  { data := .undefined, error := .str (networkErrMsg t), status := 0 }

/-- Body parsing of src/api.ts lines 85-92: `data` starts as `null`; a
JSON-declared response is decoded with `response.json()` (whose rejection
escapes to the catch clause), otherwise a non-204 response is read as text,
and a 204 leaves `data` as `null`. -/
def parseBody (resp : HttpResponse) : ParseResult :=
  if isJsonResponse resp then resp.jsonBody
  else if resp.status != 204 then .ok (.str resp.textBody)
  else .ok .null

/-- Normalization of an obtained response (src/api.ts lines 85-99, with the
`json()` rejection routed to the catch clause of lines 100-107): on
`response.ok` the parsed data is attached and `error` left `undefined`;
otherwise `data` is `undefined` and `error` is `data?.message ||
response.statusText`. -/
def handleResponse (resp : HttpResponse) : ApiResponse :=
  match parseBody resp with
  | .raised m => catchClause (.errObj m)
  | .ok data =>
    if respOk resp then { data := data, error := .undefined, status := resp.status }
    else { data := .undefined
           error := jsOr (optMember data "message") (.str resp.statusText)
           status := resp.status }

/-- One call to `apiRequest`: the request it hands to `fetch` and the
`ApiResponse` it returns for the given fetch outcome. -/
structure CallTrace where
  request : BuiltRequest
  result : ApiResponse
deriving Repr

/-- `apiRequest` (src/api.ts lines 29-108), as a total function of the
options and of the outcome the network produces for the built request. -/
def apiRequest (base endpoint : String) (opts : RequestOptions) (outcome : FetchOutcome) : CallTrace :=
  { request := buildRequest base endpoint opts
    result :=
      match outcome with
      | .failure t => catchClause t
      | .success resp => handleResponse resp }

/-- The `FormData` constructed by `uploadFile` (src/api.ts lines 185-192):
the file appended under the field name (defaulting to `"file"` when the
caller does not specify one), then each additional string field in order. -/
def uploadFormEntries (file : String) (fieldName : Option String) (additionalData : Option (List (String × String))) : List (String × FormVal) :=
  let name := match fieldName with
    | some f => f
    | none => "file"
  [(name, FormVal.file file)] ++
    (match additionalData with
     | some fields => fields.map (fun p => (p.1, FormVal.str p.2))
     | none => [])

/-- `uploadFile` (src/api.ts lines 179-198): builds the form body and
delegates to `apiRequest` with method POST and no headers or params. -/
def uploadFile (base endpoint file : String) (fieldName : Option String) (additionalData : Option (List (String × String))) (outcome : FetchOutcome) : CallTrace :=
  apiRequest base endpoint
    { method := "POST"
      headers := []
      body := some (.form (uploadFormEntries file fieldName additionalData))
      params := none }
    outcome

/-- Observable effects of one download operation: the URL fetched, the
file-save requests handed to the host runtime (as saved filenames), and the
boolean returned to the caller. -/
structure DownloadTrace where
  url : String
  saves : List String
  result : Bool
deriving Repr

/-- `downloadFile` (src/api.ts lines 206-250): rebuilds the URL with the same
query algorithm, fetches it, and on an ok response saves the blob under the
caller-supplied filename and returns true; a transport failure or a non-ok
status (which the source turns into a thrown error) reaches the catch clause,
which returns false with no save recorded. -/
def downloadFile (base endpoint filename : String) (params : Option (List (String × JsValue))) (outcome : FetchOutcome) : DownloadTrace :=
  let url := buildUrl base endpoint params
  match outcome with
  | .failure _ => { url := url, saves := [], result := false }
  | .success resp =>
    if respOk resp then { url := url, saves := [filename], result := true }
    else { url := url, saves := [], result := false }

/-- `downloadBatchResults` (src/batchApi.ts lines 35-63): same shape as
`downloadFile`, with the filename derived from the batch id and a fixed
`/api/batch/download/` URL. -/
def downloadBatchResults (batchId : String) (outcome : FetchOutcome) : DownloadTrace :=
  let filename := "batch_" ++ batchId ++ ".zip"
  let url := "/api/batch/download/" ++ batchId
  match outcome with
  | .failure _ => { url := url, saves := [], result := false }
  | .success resp =>
    if respOk resp then { url := url, saves := [filename], result := true }
    else { url := url, saves := [], result := false }

/-!
Auxiliary lemmas about association-list lookup, JS object-property
assignment (`setKey`) and the header spread, used by the header-composition
theorems below.
-/

theorem lookup_append (l₁ l₂ : List (String × String)) (k : String) :
    (l₁ ++ l₂).lookup k =
      match l₁.lookup k with
      | some v => some v
      | none => l₂.lookup k := by
  induction l₁ with
  | nil => simp
  | cons a t ih =>
    obtain ⟨a1, a2⟩ := a
    by_cases h : k = a1
    · simp [List.lookup_cons, h]
    · have hb : (k == a1) = false := by simp [h]
      simp [List.lookup_cons, hb, ih]

theorem lookup_eq_none_of_any_eq_false (hs : List (String × String)) (k : String)
    (h : hs.any (fun p => p.1 == k) = false) : hs.lookup k = none := by
  induction hs with
  | nil => simp
  | cons a t ih =>
    obtain ⟨a1, a2⟩ := a
    simp only [List.any_cons, Bool.or_eq_false_iff] at h
    have hb : (k == a1) = false := by
      have h1 := h.1
      simp only [beq_eq_false_iff_ne] at h1 ⊢
      exact fun he => h1 he.symm
    simp [List.lookup_cons, hb, ih h.2]

theorem lookup_overwrite_self (t : List (String × String)) (k v : String)
    (h : t.any (fun p => p.1 == k) = true) :
    (t.map (fun p => if p.1 == k then (k, v) else p)).lookup k = some v := by
  induction t with
  | nil => simp at h
  | cons a t ih =>
    obtain ⟨a1, a2⟩ := a
    by_cases ha : a1 = k
    · simp [List.lookup_cons, ha]
    · have hb : (a1 == k) = false := by simp [ha]
      have hkb : (k == a1) = false := beq_eq_false_iff_ne.mpr (Ne.symm ha)
      simp only [List.any_cons, hb, Bool.false_or] at h
      simpa [List.lookup_cons, ha, hkb] using ih h

theorem lookup_overwrite_other (t : List (String × String)) (k v k' : String)
    (hne : k' ≠ k) :
    (t.map (fun p => if p.1 == k then (k, v) else p)).lookup k' = t.lookup k' := by
  induction t with
  | nil => simp
  | cons a t ih =>
    obtain ⟨a1, a2⟩ := a
    by_cases ha : a1 = k
    · have hk'a : (k' == a1) = false := by simp [ha, hne]
      have hk'k : (k' == k) = false := by simp [hne]
      simpa [List.lookup_cons, ha, hk'a, hk'k] using ih
    · have hb : (a1 == k) = false := by simp [ha]
      by_cases hk' : k' = a1
      · simp [List.lookup_cons, ha, hk']
      · have hk'b : (k' == a1) = false := by simp [hk']
        simpa [List.lookup_cons, ha, hk'b] using ih

theorem setKey_lookup_self (hs : List (String × String)) (k v : String) :
    (setKey hs k v).lookup k = some v := by
  unfold setKey
  by_cases h : hs.any (fun p => p.1 == k) = true
  · rw [if_pos h]
    exact lookup_overwrite_self hs k v h
  · have hf : hs.any (fun p => p.1 == k) = false := by
      rcases Bool.eq_false_or_eq_true (hs.any (fun p => p.1 == k)) with h0 | h0
      · exact absurd h0 h
      · exact h0
    rw [hf, if_neg (by decide)]
    have h0 := lookup_eq_none_of_any_eq_false hs k hf
    simp [lookup_append, h0, List.lookup_cons]

theorem setKey_lookup_other (hs : List (String × String)) (k v k' : String)
    (hne : k' ≠ k) :
    (setKey hs k v).lookup k' = hs.lookup k' := by
  unfold setKey
  by_cases h : hs.any (fun p => p.1 == k) = true
  · rw [if_pos h]
    exact lookup_overwrite_other hs k v k' hne
  · have hf : hs.any (fun p => p.1 == k) = false := by
      rcases Bool.eq_false_or_eq_true (hs.any (fun p => p.1 == k)) with h0 | h0
      · exact absurd h0 h
      · exact h0
    rw [hf, if_neg (by decide)]
    have hkk : (k' == k) = false := by simp [hne]
    rw [lookup_append]
    cases List.lookup k' hs with
    | some w => rfl
    | none => simp [List.lookup_cons, hkk]

theorem lookup_foldl_setKey (caller : List (String × String)) (init : List (String × String)) (k : String) :
    (caller.foldl (fun acc p => setKey acc p.1 p.2) init).lookup k =
      match caller.reverse.lookup k with
      | some v => some v
      | none => init.lookup k := by
  induction caller generalizing init with
  | nil => simp
  | cons a t ih =>
    obtain ⟨a1, a2⟩ := a
    rw [List.foldl_cons, ih (setKey init a1 a2)]
    rw [List.reverse_cons, lookup_append]
    cases ht : t.reverse.lookup k with
    | some w => rfl
    | none =>
      by_cases hk : k = a1
      · subst hk
        simp [List.lookup_cons, setKey_lookup_self]
      · have hb : (k == a1) = false := by simp [hk]
        simp [List.lookup_cons, hb, setKey_lookup_other init a1 a2 k hk]

theorem spreadHeaders_lookup (caller : List (String × String)) (k : String) :
    (spreadHeaders caller).lookup k =
      match caller.reverse.lookup k with
      | some v => some v
      | none => if k = "Accept" then some "application/json" else none := by
  unfold spreadHeaders
  rw [lookup_foldl_setKey]
  cases caller.reverse.lookup k with
  | some w => rfl
  | none =>
    by_cases hk : k = "Accept"
    · simp [List.lookup_cons, hk]
    · have hb : (k == "Accept") = false := by simp [hk]
      simp [List.lookup_cons, hb, hk]

theorem respOk_iff (resp : HttpResponse) :
    respOk resp = true ↔ (200 ≤ resp.status ∧ resp.status ≤ 299) := by
  simp [respOk]

theorem ne_true_eq_false (b : Bool) (h : ¬b = true) : b = false := by
  cases b
  · rfl
  · exact absurd rfl h

theorem present_of_truthy (v : JsValue) (h : truthy v = true) : present v = true := by
  cases v <;> simp_all [truthy, present]

theorem present_jsOr_str (a : JsValue) (s : String) : present (jsOr a (.str s)) = true := by
  unfold jsOr
  by_cases h : truthy a = true
  · rw [if_pos h]
    exact present_of_truthy a h
  · rw [if_neg (by simp [Bool.not_eq_true] at h; simp [h])]
    rfl

theorem null_of_not_present (v : JsValue) (h : present v = false) (h2 : v ≠ .undefined) :
    v = .null := by
  cases v with
  | undefined => exact absurd rfl h2
  | null => rfl
  | bool b => simp [present] at h
  | num n => simp [present] at h
  | str s => simp [present] at h
  | arr es => simp [present] at h
  | obj fs => simp [present] at h

theorem filterMap_keepParam_filter (ps : List (String × JsValue)) :
    (ps.filter (fun p => !nullishParam p)).filterMap keepParam = ps.filterMap keepParam := by
  induction ps with
  | nil => simp
  | cons p t ih =>
    obtain ⟨k, v⟩ := p
    cases v <;> simpa [nullishParam, keepParam, List.filter_cons] using ih

/-- Claim C6: entries of the query-parameter map whose value is `undefined`
or `null` are omitted from the built query string, the remaining entries
appearing in insertion order; in particular params
`{a: "1", b: undefined, c: "x"}` yield the query string `a=1&c=x`. -/
theorem buildUrl_query_params (base endpoint : String) (ps : List (String × JsValue)) :
    buildUrl base endpoint (some ps) =
      buildUrl base endpoint (some (ps.filter (fun p => !nullishParam p))) ∧
    buildUrl base endpoint
        (some [("a", JsValue.str "1"), ("b", JsValue.undefined), ("c", JsValue.str "x")]) =
      base ++ endpoint ++ "?a=1&c=x" := by
  constructor
  · simp only [buildUrl]
    rw [filterMap_keepParam_filter]
  · have hq : serializeQuery
        ([("a", JsValue.str "1"), ("b", JsValue.undefined), ("c", JsValue.str "x")].filterMap keepParam) =
        "a=1&c=x" := by decide
    simp only [buildUrl]
    rw [hq]
    rw [if_neg (by decide)]
    rw [String.append_assoc]
    congr 1

/-- Claim C10: a body argument that is present but falsy (`""`, `0`,
`false`, and likewise `null`) is not transmitted and triggers no
Content-Type header — the built request is identical to one with no body. -/
theorem falsy_body_like_absent (base endpoint m : String) (hs : List (String × String))
    (ps : Option (List (String × JsValue))) (v : JsValue) (hfalsy : truthy v = false) :
    buildRequest base endpoint ⟨m, hs, some (.js v), ps⟩ =
      buildRequest base endpoint ⟨m, hs, none, ps⟩ ∧
    (buildRequest base endpoint ⟨m, hs, some (.js v), ps⟩).body = none := by
  have h1 : bodyNeedsJsonType (some (.js v)) = false := by
    simp [bodyNeedsJsonType, RequestBody.jsTruthy, RequestBody.isFormData, hfalsy]
  have h2 : attachBody (some (.js v)) = none := by
    simp [attachBody, RequestBody.jsTruthy, hfalsy]
  have h3 : buildHeaders hs (some (.js v)) = buildHeaders hs none := by
    unfold buildHeaders
    rw [h1]
    simp [bodyNeedsJsonType]
  constructor
  · simp [buildRequest, h3, h2, attachBody, RequestBody.jsTruthy, hfalsy]
  · simp [buildRequest, h2]

/-- Witness for C10 at the three falsy bodies named by the claim. -/
theorem falsy_body_like_absent_witness :
    (buildRequest defaultBaseUrl "/t" ⟨"POST", [], some (.js (.str "")), none⟩).body = none ∧
    (buildRequest defaultBaseUrl "/t" ⟨"POST", [], some (.js (.num 0)), none⟩).body = none ∧
    (buildRequest defaultBaseUrl "/t" ⟨"POST", [], some (.js (.bool false)), none⟩).body = none :=
  ⟨(falsy_body_like_absent defaultBaseUrl "/t" "POST" [] none (.str "") (by decide)).2,
   (falsy_body_like_absent defaultBaseUrl "/t" "POST" [] none (.num 0) (by decide)).2,
   (falsy_body_like_absent defaultBaseUrl "/t" "POST" [] none (.bool false) (by decide)).2⟩

/-- Claim C2: a transport-level failure produces status 0 and the error text
extracted from the thrown value, which is non-empty whenever the platform's
error description is (a non-`Error` throw yields the non-empty fallback
`"Network error"`); the modelled `apiRequest` is total, mirroring that the
source never lets the exception propagate. -/
theorem apiRequest_transport_failure (base endpoint : String) (opts : RequestOptions)
    (t : Thrown) (hmsg : ∀ m, t = .errObj m → m ≠ "") :
    (apiRequest base endpoint opts (.failure t)).result.status = 0 ∧
    (apiRequest base endpoint opts (.failure t)).result.error = .str (networkErrMsg t) ∧
    networkErrMsg t ≠ "" := by
  refine ⟨rfl, rfl, ?_⟩
  cases t with
  | errObj m => exact hmsg m rfl
  | other => decide

/-- Witness for C2 at a concrete connection-refused failure. -/
theorem apiRequest_transport_failure_witness :
    (apiRequest defaultBaseUrl "/templates" ⟨"GET", [], none, none⟩
        (.failure (.errObj "connection refused"))).result.status = 0 ∧
    (apiRequest defaultBaseUrl "/templates" ⟨"GET", [], none, none⟩
        (.failure (.errObj "connection refused"))).result.error = .str "connection refused" ∧
    ("connection refused" : String) ≠ "" := by
  have h := apiRequest_transport_failure defaultBaseUrl "/templates" ⟨"GET", [], none, none⟩
    (.errObj "connection refused")
    (by intro m hm; cases hm; decide)
  exact ⟨h.1, h.2.1, h.2.2⟩

/-- Claim C8: with no additional fields the constructed form body holds
exactly one entry, under the default field name `"file"` when the caller
gives none; each supplied additional string field also appears in the body;
and the request is a POST issued through the general `apiRequest` path. -/
theorem uploadFile_form_construction (base endpoint f : String) (fieldName : Option String)
    (ad : Option (List (String × String))) (outcome : FetchOutcome) :
    uploadFormEntries f none none = [("file", FormVal.file f)] ∧
    (uploadFile base endpoint f none none outcome).request.body =
      some (.formBody [("file", FormVal.file f)]) ∧
    (uploadFile base endpoint f fieldName ad outcome).request.method = "POST" ∧
    (uploadFile base endpoint f fieldName ad outcome).request.body =
      some (.formBody (uploadFormEntries f fieldName ad)) ∧
    (∀ fields k v, ad = some fields → (k, v) ∈ fields →
      (k, FormVal.str v) ∈ uploadFormEntries f fieldName (some fields)) ∧
    uploadFile base endpoint f fieldName ad outcome =
      apiRequest base endpoint
        ⟨"POST", [], some (.form (uploadFormEntries f fieldName ad)), none⟩ outcome := by
  refine ⟨?_, ?_, rfl, ?_, ?_, rfl⟩
  · unfold uploadFormEntries
    rfl
  · simp [uploadFile, apiRequest, buildRequest, attachBody, RequestBody.jsTruthy,
      uploadFormEntries]
  · simp [uploadFile, apiRequest, buildRequest, attachBody, RequestBody.jsTruthy]
  · intro fields k v had hmem
    subst had
    unfold uploadFormEntries
    refine List.mem_append_right _ ?_
    exact List.mem_map_of_mem (fun p => (p.1, FormVal.str p.2)) hmem

/-- Witness for C8 at a concrete upload with one additional field. -/
theorem uploadFile_form_construction_witness :
    uploadFormEntries "report.pdf" none none = [("file", FormVal.file "report.pdf")] ∧
    (uploadFile defaultBaseUrl "/pdf/analyze" "report.pdf" none (some [("k", "v")])
        (.failure .other)).request.method = "POST" ∧
    ("k", FormVal.str "v") ∈ uploadFormEntries "report.pdf" none (some [("k", "v")]) := by
  have h := uploadFile_form_construction defaultBaseUrl "/pdf/analyze" "report.pdf" none
    (some [("k", "v")]) (.failure .other)
  exact ⟨h.1, h.2.2.1, h.2.2.2.2.1 [("k", "v")] "k" "v" rfl (by simp)⟩

/-- Claim C9: a download against an ok (2xx) response records exactly one
save request under the caller-supplied filename (for the batch variant, the
filename derived from the batch id) and returns true; a transport failure or
a non-2xx status yields false with no save recorded and no structured error
— the modelled functions are total, mirroring that the source catch clauses
let no exception propagate. -/
theorem download_boolean_outcome (base endpoint filename batchId : String)
    (params : Option (List (String × JsValue))) (outcome : FetchOutcome) :
    (∀ resp, outcome = .success resp → respOk resp = true →
      (downloadFile base endpoint filename params outcome).saves = [filename] ∧
      (downloadFile base endpoint filename params outcome).result = true ∧
      (downloadBatchResults batchId outcome).saves = ["batch_" ++ batchId ++ ".zip"] ∧
      (downloadBatchResults batchId outcome).result = true) ∧
    (∀ t, outcome = .failure t →
      (downloadFile base endpoint filename params outcome).saves = [] ∧
      (downloadFile base endpoint filename params outcome).result = false ∧
      (downloadBatchResults batchId outcome).saves = [] ∧
      (downloadBatchResults batchId outcome).result = false) ∧
    (∀ resp, outcome = .success resp → respOk resp = false →
      (downloadFile base endpoint filename params outcome).saves = [] ∧
      (downloadFile base endpoint filename params outcome).result = false ∧
      (downloadBatchResults batchId outcome).saves = [] ∧
      (downloadBatchResults batchId outcome).result = false) := by
  refine ⟨?_, ?_, ?_⟩
  · intro resp ho hok
    subst ho
    simp [downloadFile, downloadBatchResults, hok]
  · intro t ho
    subst ho
    simp [downloadFile, downloadBatchResults]
  · intro resp ho hok
    subst ho
    simp [downloadFile, downloadBatchResults, hok]

/-- Witness for C9 at a concrete ok binary response and a concrete refused
connection. -/
theorem download_boolean_outcome_witness :
    (downloadFile defaultBaseUrl "/generate/1" "generated_data.csv" none
        (.success ⟨200, "OK", some "text/csv", .raised "x", "a,b"⟩)).saves =
      ["generated_data.csv"] ∧
    (downloadFile defaultBaseUrl "/generate/1" "generated_data.csv" none
        (.success ⟨200, "OK", some "text/csv", .raised "x", "a,b"⟩)).result = true ∧
    (downloadBatchResults "7"
        (.failure (.errObj "connection refused"))).result = false := by
  have h1 := download_boolean_outcome defaultBaseUrl "/generate/1" "generated_data.csv" "7" none
    (.success ⟨200, "OK", some "text/csv", .raised "x", "a,b"⟩)
  have h2 := download_boolean_outcome defaultBaseUrl "/generate/1" "generated_data.csv" "7" none
    (.failure (.errObj "connection refused"))
  have ha := h1.1 ⟨200, "OK", some "text/csv", .raised "x", "a,b"⟩ rfl (by decide)
  have hb := h2.2.1 (.errObj "connection refused") rfl
  exact ⟨ha.1, ha.2.1, hb.2.2.2⟩

theorem parseBody_ok_exists (resp : HttpResponse)
    (hdecode : isJsonResponse resp = true → ∃ d, resp.jsonBody = .ok d) :
    ∃ d0, parseBody resp = .ok d0 := by
  unfold parseBody
  by_cases hj : isJsonResponse resp = true
  · obtain ⟨d, hd⟩ := hdecode hj
    exact ⟨d, by rw [if_pos hj, hd]⟩
  · rw [if_neg hj]
    by_cases h204 : resp.status = 204
    · exact ⟨.null, by rw [if_neg (by simp [h204])]⟩
    · exact ⟨.str resp.textBody, by rw [if_pos (by simp [h204])]⟩

/-- Claim C1: for a response obtained by `apiRequest` (whose declared body
decodes, the decode-failure path being routed separately to the error path),
the Result is classified successful — its `error` field absent — if and only
if the status code is in 200-299; and a JSON-declared 2xx response yields
`data` equal to the decoded JSON body with `error` absent. -/
theorem apiRequest_ok_classification (base endpoint : String) (opts : RequestOptions)
    (resp : HttpResponse)
    (hdecode : isJsonResponse resp = true → ∃ d, resp.jsonBody = .ok d) :
    (present (apiRequest base endpoint opts (.success resp)).result.error = false ↔
      (200 ≤ resp.status ∧ resp.status ≤ 299)) ∧
    (∀ d, isJsonResponse resp = true → resp.jsonBody = .ok d →
      200 ≤ resp.status → resp.status ≤ 299 →
      (apiRequest base endpoint opts (.success resp)).result.data = d ∧
      (apiRequest base endpoint opts (.success resp)).result.error = .undefined) := by
  obtain ⟨d0, hd0⟩ := parseBody_ok_exists resp hdecode
  have hres : (apiRequest base endpoint opts (.success resp)).result = handleResponse resp := rfl
  constructor
  · rw [hres]
    simp only [handleResponse, hd0]
    by_cases hok : respOk resp = true
    · rw [if_pos hok]
      constructor
      · intro _
        exact (respOk_iff resp).mp hok
      · intro _
        rfl
    · have hof : respOk resp = false := ne_true_eq_false _ hok
      rw [if_neg (by simp [hof])]
      show present (jsOr (optMember d0 "message") (JsValue.str resp.statusText)) = false ↔ _
      rw [present_jsOr_str]
      constructor
      · intro h
        exact Bool.noConfusion h
      · intro h
        exact absurd ((respOk_iff resp).mpr h) (by simp [hof])
  · intro d hj hjb h1 h2
    have hpd : parseBody resp = .ok d := by
      unfold parseBody
      rw [if_pos hj, hjb]
    have hdd : d0 = d := by
      rw [hd0] at hpd
      injection hpd
    subst hdd
    have hok : respOk resp = true := (respOk_iff resp).mpr ⟨h1, h2⟩
    rw [hres]
    simp only [handleResponse, hd0]
    rw [if_pos hok]
    exact ⟨rfl, rfl⟩

/-- Witness for C1 at a concrete 200 JSON response carrying a page envelope. -/
theorem apiRequest_ok_classification_witness :
    (apiRequest defaultBaseUrl "/templates" ⟨"GET", [], none, none⟩
        (.success ⟨200, "OK", some "application/json",
          .ok (.obj [("content", .arr []), ("totalElements", .num 0)]), ""⟩)).result.data =
      .obj [("content", .arr []), ("totalElements", .num 0)] ∧
    (apiRequest defaultBaseUrl "/templates" ⟨"GET", [], none, none⟩
        (.success ⟨200, "OK", some "application/json",
          .ok (.obj [("content", .arr []), ("totalElements", .num 0)]), ""⟩)).result.error =
      .undefined := by
  have h := apiRequest_ok_classification defaultBaseUrl "/templates" ⟨"GET", [], none, none⟩
    ⟨200, "OK", some "application/json",
      .ok (.obj [("content", .arr []), ("totalElements", .num 0)]), ""⟩
    (fun _ => ⟨.obj [("content", .arr []), ("totalElements", .num 0)], rfl⟩)
  exact h.2 (.obj [("content", .arr []), ("totalElements", .num 0)]) (by decide) rfl
    (by decide) (by decide)

/-- Claim C3: a response with status outside 200-299 yields a Result with no
payload and a non-empty `errorMessage`, which is the `message` field of a
structured JSON error body when that field is available, and otherwise the
reason phrase — under the spec's collaborator assumption that a structured
error body is well-formed (its `message` field, when present, a non-empty
string, and the declared JSON body decodable) and that the platform's reason
phrase is non-empty. -/
theorem apiRequest_http_error (base endpoint : String) (opts : RequestOptions)
    (resp : HttpResponse)
    (hstatus : ¬(200 ≤ resp.status ∧ resp.status ≤ 299))
    (hreason : resp.statusText ≠ "")
    (hbody : isJsonResponse resp = true → ∃ d, resp.jsonBody = .ok d ∧
      (optMember d "message" = .undefined ∨ ∃ s, optMember d "message" = .str s ∧ s ≠ "")) :
    (apiRequest base endpoint opts (.success resp)).result.status = resp.status ∧
    present (apiRequest base endpoint opts (.success resp)).result.data = false ∧
    (∃ s, (apiRequest base endpoint opts (.success resp)).result.error = .str s ∧ s ≠ "") ∧
    (∀ d s, isJsonResponse resp = true → resp.jsonBody = .ok d →
      optMember d "message" = .str s →
      (apiRequest base endpoint opts (.success resp)).result.error = .str s) ∧
    (∀ d, isJsonResponse resp = true → resp.jsonBody = .ok d →
      optMember d "message" = .undefined →
      (apiRequest base endpoint opts (.success resp)).result.error = .str resp.statusText) ∧
    (isJsonResponse resp = false →
      (apiRequest base endpoint opts (.success resp)).result.error = .str resp.statusText) := by
  have hres : (apiRequest base endpoint opts (.success resp)).result = handleResponse resp := rfl
  have hof : respOk resp = false :=
    ne_true_eq_false _ (fun h => hstatus ((respOk_iff resp).mp h))
  have h204 : resp.status ≠ 204 := by
    intro h
    exact hstatus (by omega)
  cases hj : isJsonResponse resp with
  | false =>
    have hpb : parseBody resp = .ok (.str resp.textBody) := by
      unfold parseBody
      rw [if_neg (by simp [hj]), if_pos (by simp [h204])]
    have hr : (apiRequest base endpoint opts (.success resp)).result =
        ⟨.undefined, .str resp.statusText, resp.status⟩ := by
      rw [hres]
      simp only [handleResponse, hpb]
      rw [if_neg (by simp [hof])]
      simp [jsOr, optMember, truthy]
    refine ⟨by rw [hr], by rw [hr]; rfl, ⟨resp.statusText, by rw [hr], hreason⟩, ?_, ?_, ?_⟩
    · intro d s hj' _ _
      exact absurd hj' (by simp [hj])
    · intro d hj' _ _
      exact absurd hj' (by simp [hj])
    · intro _
      rw [hr]
  | true =>
    obtain ⟨d, hd, hmsg⟩ := hbody hj
    have hpb : parseBody resp = .ok d := by
      unfold parseBody
      rw [if_pos hj, hd]
    cases hmsg with
    | inl hu =>
      have hr : (apiRequest base endpoint opts (.success resp)).result =
          ⟨.undefined, .str resp.statusText, resp.status⟩ := by
        rw [hres]
        simp only [handleResponse, hpb]
        rw [if_neg (by simp [hof])]
        simp [jsOr, hu, truthy]
      refine ⟨by rw [hr], by rw [hr]; rfl, ⟨resp.statusText, by rw [hr], hreason⟩, ?_, ?_, ?_⟩
      · intro d' s _ hjb' hms'
        have hdd : d = d' := by
          rw [hd] at hjb'
          injection hjb'
        subst hdd
        rw [hu] at hms'
        exact absurd hms' (by simp)
      · intro d' _ _ _
        rw [hr]
      · intro hj'
        exact absurd hj' (by simp [hj])
    | inr hex =>
      obtain ⟨s, hs, hsne⟩ := hex
      have htr : truthy (.str s) = true := by simp [truthy, hsne]
      have hr : (apiRequest base endpoint opts (.success resp)).result =
          ⟨.undefined, .str s, resp.status⟩ := by
        rw [hres]
        simp only [handleResponse, hpb]
        rw [if_neg (by simp [hof])]
        simp [jsOr, hs, htr]
      refine ⟨by rw [hr], by rw [hr]; rfl, ⟨s, by rw [hr], hsne⟩, ?_, ?_, ?_⟩
      · intro d' s' _ hjb' hms'
        have hdd : d = d' := by
          rw [hd] at hjb'
          injection hjb'
        subst hdd
        rw [hs] at hms'
        have hss : s = s' := by injection hms'
        rw [hr, hss]
      · intro d' _ hjb' hms'
        have hdd : d = d' := by
          rw [hd] at hjb'
          injection hjb'
        subst hdd
        rw [hs] at hms'
        exact absurd hms' (by simp)
      · intro hj'
        exact absurd hj' (by simp [hj])

/-- Witness for C3 at the spec's own scenario: a 400 JSON error body carrying
`message: "name is required"`. -/
theorem apiRequest_http_error_witness :
    (apiRequest defaultBaseUrl "/schedules" ⟨"POST", [], none, none⟩
        (.success ⟨400, "Bad Request", some "application/json",
          .ok (.obj [("message", .str "name is required")]), ""⟩)).result.status = 400 ∧
    present (apiRequest defaultBaseUrl "/schedules" ⟨"POST", [], none, none⟩
        (.success ⟨400, "Bad Request", some "application/json",
          .ok (.obj [("message", .str "name is required")]), ""⟩)).result.data = false ∧
    (apiRequest defaultBaseUrl "/schedules" ⟨"POST", [], none, none⟩
        (.success ⟨400, "Bad Request", some "application/json",
          .ok (.obj [("message", .str "name is required")]), ""⟩)).result.error =
      .str "name is required" := by
  have h := apiRequest_http_error defaultBaseUrl "/schedules" ⟨"POST", [], none, none⟩
    ⟨400, "Bad Request", some "application/json",
      .ok (.obj [("message", .str "name is required")]), ""⟩
    (by decide)
    (by decide)
    (fun _ => ⟨.obj [("message", .str "name is required")], rfl,
      Or.inr ⟨"name is required", rfl, by decide⟩⟩)
  exact ⟨h.1, h.2.1, h.2.2.2.1 (.obj [("message", .str "name is required")]) "name is required"
    (by decide) rfl rfl⟩

/-- Claim C4 as stated is false: a successful (200) JSON response whose body
is the JSON literal `null` — a response that does carry a body — produces a
Result with neither payload nor errorMessage, so neither "exactly one of the
two is present" nor the claim's only exception (a response carrying no body)
applies at this input. -/
theorem apiRequest_result_exclusivity_cex :
    ¬((present (apiRequest defaultBaseUrl "/t" ⟨"GET", [], none, none⟩
          (.success ⟨200, "OK", some "application/json", .ok .null, "null"⟩)).result.data = true ∧
       present (apiRequest defaultBaseUrl "/t" ⟨"GET", [], none, none⟩
          (.success ⟨200, "OK", some "application/json", .ok .null, "null"⟩)).result.error = false) ∨
      (present (apiRequest defaultBaseUrl "/t" ⟨"GET", [], none, none⟩
          (.success ⟨200, "OK", some "application/json", .ok .null, "null"⟩)).result.data = false ∧
       present (apiRequest defaultBaseUrl "/t" ⟨"GET", [], none, none⟩
          (.success ⟨200, "OK", some "application/json", .ok .null, "null"⟩)).result.error = true) ∨
      (⟨200, "OK", some "application/json", .ok .null, "null"⟩ : HttpResponse).textBody = "") := by
  decide

/-- Claim C4, amended as the counterexample forces: `data` and `error` are
never both present, and exactly one is present except on a successful call
whose decoded content is empty — no body, a 204, or a body decoding to JSON
`null` — where neither is present (assuming, as JSON decoding guarantees,
that a decoded body is never the value `undefined`). -/
theorem apiRequest_result_exclusivity (base endpoint : String) (opts : RequestOptions)
    (outcome : FetchOutcome)
    (hwf : ∀ resp d, outcome = .success resp → resp.jsonBody = .ok d → d ≠ .undefined) :
    ¬(present (apiRequest base endpoint opts outcome).result.data = true ∧
      present (apiRequest base endpoint opts outcome).result.error = true) ∧
    (present (apiRequest base endpoint opts outcome).result.data = true ∨
     present (apiRequest base endpoint opts outcome).result.error = true ∨
     (present (apiRequest base endpoint opts outcome).result.error = false ∧
      (apiRequest base endpoint opts outcome).result.data = .null ∧
      200 ≤ (apiRequest base endpoint opts outcome).result.status ∧
      (apiRequest base endpoint opts outcome).result.status ≤ 299)) := by
  cases outcome with
  | failure t =>
    have hr : (apiRequest base endpoint opts (.failure t)).result =
        ⟨.undefined, .str (networkErrMsg t), 0⟩ := rfl
    rw [hr]
    exact ⟨fun h => Bool.noConfusion h.1, Or.inr (Or.inl rfl)⟩
  | success resp =>
    cases hp : parseBody resp with
    | raised m =>
      have hr : (apiRequest base endpoint opts (.success resp)).result =
          ⟨.undefined, .str m, 0⟩ := by
        show handleResponse resp = _
        simp only [handleResponse, hp]
        rfl
      rw [hr]
      exact ⟨fun h => Bool.noConfusion h.1, Or.inr (Or.inl rfl)⟩
    | ok d =>
      have hd : d ≠ .undefined := by
        unfold parseBody at hp
        by_cases hj : isJsonResponse resp = true
        · rw [if_pos hj] at hp
          exact hwf resp d rfl hp
        · rw [if_neg hj] at hp
          by_cases h204 : (resp.status != 204) = true
          · rw [if_pos h204] at hp
            injection hp with h'
            rw [← h']
            simp
          · rw [if_neg h204] at hp
            injection hp with h'
            rw [← h']
            simp
      by_cases hok : respOk resp = true
      · have hr : (apiRequest base endpoint opts (.success resp)).result =
            ⟨d, .undefined, resp.status⟩ := by
          show handleResponse resp = _
          simp only [handleResponse, hp]
          rw [if_pos hok]
        rw [hr]
        refine ⟨fun h => Bool.noConfusion h.2, ?_⟩
        cases hpd : present d with
        | true => exact Or.inl rfl
        | false =>
          have hnull : d = .null := null_of_not_present d hpd hd
          exact Or.inr (Or.inr ⟨rfl, hnull,
            ((respOk_iff resp).mp hok).1, ((respOk_iff resp).mp hok).2⟩)
      · have hof : respOk resp = false := ne_true_eq_false _ hok
        have hr : (apiRequest base endpoint opts (.success resp)).result =
            ⟨.undefined, jsOr (optMember d "message") (.str resp.statusText), resp.status⟩ := by
          show handleResponse resp = _
          simp only [handleResponse, hp]
          rw [if_neg (by simp [hof])]
        rw [hr]
        exact ⟨fun h => Bool.noConfusion h.1, Or.inr (Or.inl (present_jsOr_str _ _))⟩

/-- Witness for the amended C4 at a concrete successful text response. -/
theorem apiRequest_result_exclusivity_witness :
    present (apiRequest defaultBaseUrl "/t" ⟨"GET", [], none, none⟩
        (.success ⟨200, "OK", some "text/plain", .raised "x", "hello"⟩)).result.data = true ∨
    present (apiRequest defaultBaseUrl "/t" ⟨"GET", [], none, none⟩
        (.success ⟨200, "OK", some "text/plain", .raised "x", "hello"⟩)).result.error = true ∨
    (present (apiRequest defaultBaseUrl "/t" ⟨"GET", [], none, none⟩
        (.success ⟨200, "OK", some "text/plain", .raised "x", "hello"⟩)).result.error = false ∧
     (apiRequest defaultBaseUrl "/t" ⟨"GET", [], none, none⟩
        (.success ⟨200, "OK", some "text/plain", .raised "x", "hello"⟩)).result.data = .null ∧
     200 ≤ (apiRequest defaultBaseUrl "/t" ⟨"GET", [], none, none⟩
        (.success ⟨200, "OK", some "text/plain", .raised "x", "hello"⟩)).result.status ∧
     (apiRequest defaultBaseUrl "/t" ⟨"GET", [], none, none⟩
        (.success ⟨200, "OK", some "text/plain", .raised "x", "hello"⟩)).result.status ≤ 299) :=
  (apiRequest_result_exclusivity defaultBaseUrl "/t" ⟨"GET", [], none, none⟩
    (.success ⟨200, "OK", some "text/plain", .raised "x", "hello"⟩)
    (by
      intro resp d h1 h2
      injection h1 with h3
      subst h3
      exact ParseResult.noConfusion h2)).2

/-- Claim C5 as stated is false: a 204 response that declares a JSON content
type takes the JSON branch, whose `response.json()` rejects on the (by
specification empty) body, so the call lands in the catch clause with
status 0 and an error message — not a success with empty payload. -/
theorem apiRequest_no_content_cex :
    ¬(present (apiRequest defaultBaseUrl "/schedules/1/execute" ⟨"POST", [], none, none⟩
          (.success ⟨204, "No Content", some "application/json",
            .raised "Unexpected end of JSON input", ""⟩)).result.data = false ∧
      present (apiRequest defaultBaseUrl "/schedules/1/execute" ⟨"POST", [], none, none⟩
          (.success ⟨204, "No Content", some "application/json",
            .raised "Unexpected end of JSON input", ""⟩)).result.error = false) := by
  decide

/-- Claim C5, amended as the counterexample forces: a 204 response that does
not declare a JSON content type yields a Result with no payload (`data` is
`null`), no errorMessage, and status 204 — a success. -/
theorem apiRequest_no_content (base endpoint : String) (opts : RequestOptions)
    (resp : HttpResponse) (h204 : resp.status = 204) (hj : isJsonResponse resp = false) :
    (apiRequest base endpoint opts (.success resp)).result.data = .null ∧
    present (apiRequest base endpoint opts (.success resp)).result.data = false ∧
    (apiRequest base endpoint opts (.success resp)).result.error = .undefined ∧
    (apiRequest base endpoint opts (.success resp)).result.status = 204 := by
  have hok : respOk resp = true := (respOk_iff resp).mpr (by rw [h204]; omega)
  have hpb : parseBody resp = .ok .null := by
    unfold parseBody
    rw [if_neg (by simp [hj]), if_neg (by simp [h204])]
  have hr : (apiRequest base endpoint opts (.success resp)).result =
      ⟨.null, .undefined, resp.status⟩ := by
    show handleResponse resp = _
    simp only [handleResponse, hpb]
    rw [if_pos hok]
  rw [hr]
  exact ⟨rfl, rfl, rfl, h204⟩

/-- Witness for the amended C5 at a concrete bodiless 204. -/
theorem apiRequest_no_content_witness :
    (apiRequest defaultBaseUrl "/templates/3" ⟨"DELETE", [], none, none⟩
        (.success ⟨204, "No Content", none, .raised "x", ""⟩)).result.data = .null ∧
    present (apiRequest defaultBaseUrl "/templates/3" ⟨"DELETE", [], none, none⟩
        (.success ⟨204, "No Content", none, .raised "x", ""⟩)).result.data = false ∧
    (apiRequest defaultBaseUrl "/templates/3" ⟨"DELETE", [], none, none⟩
        (.success ⟨204, "No Content", none, .raised "x", ""⟩)).result.error = .undefined ∧
    (apiRequest defaultBaseUrl "/templates/3" ⟨"DELETE", [], none, none⟩
        (.success ⟨204, "No Content", none, .raised "x", ""⟩)).result.status = 204 :=
  apiRequest_no_content defaultBaseUrl "/templates/3" ⟨"DELETE", [], none, none⟩
    ⟨204, "No Content", none, .raised "x", ""⟩ rfl (by decide)

/-- Claim C7 as stated is false: a present but falsy non-binary body (here
the empty string) does not trigger the JSON Content-Type — the source's
`body && !(body instanceof FormData)` test requires a truthy body — so the
final request carries no Content-Type header although a non-binary body is
present. -/
theorem header_composition_cex :
    (buildRequest defaultBaseUrl "/x" ⟨"POST", [], some (.js (.str "")), none⟩).headers.lookup
        "Content-Type" = none ∧
    ¬((buildRequest defaultBaseUrl "/x" ⟨"POST", [], some (.js (.str "")), none⟩).headers.lookup
        "Content-Type" = some "application/json") := by
  decide

/-- Claim C7, amended as the counterexample forces: the `Accept:
application/json` default is present unless a caller-supplied header (applied
after the default, last occurrence winning) overrides it; and the
Content-Type rule is applied last: a JSON Content-Type is set exactly when a
truthy non-binary body is present, while for a binary form body, a falsy
body, or no body the Gateway sets no Content-Type of its own, leaving the
caller's (if any). -/
theorem header_composition (base endpoint m : String) (caller : List (String × String))
    (body : Option RequestBody) (params : Option (List (String × JsValue))) :
    (buildRequest base endpoint ⟨m, caller, body, params⟩).headers = buildHeaders caller body ∧
    ((buildHeaders caller body).lookup "Accept" =
      match caller.reverse.lookup "Accept" with
      | some v => some v
      | none => some "application/json") ∧
    (bodyNeedsJsonType body = true →
      (buildHeaders caller body).lookup "Content-Type" = some "application/json") ∧
    (bodyNeedsJsonType body = false →
      (buildHeaders caller body).lookup "Content-Type" =
        caller.reverse.lookup "Content-Type") := by
  refine ⟨rfl, ?_, ?_, ?_⟩
  · simp only [buildHeaders]
    by_cases hb : bodyNeedsJsonType body = true
    · rw [if_pos hb]
      rw [setKey_lookup_other (spreadHeaders caller) "Content-Type" "application/json" "Accept"
        (by decide)]
      rw [spreadHeaders_lookup]
      cases caller.reverse.lookup "Accept" with
      | some v => rfl
      | none => simp
    · rw [if_neg hb]
      rw [spreadHeaders_lookup]
      cases caller.reverse.lookup "Accept" with
      | some v => rfl
      | none => simp
  · intro hb
    simp only [buildHeaders]
    rw [if_pos hb, setKey_lookup_self]
  · intro hb
    simp only [buildHeaders]
    rw [if_neg (by simp [hb]), spreadHeaders_lookup]
    cases caller.reverse.lookup "Content-Type" with
    | some v => rfl
    | none => simp

/-- Witness for the amended C7: a caller override of Accept with a truthy
JSON body, and the bare defaults with no body. -/
theorem header_composition_witness :
    (buildHeaders [("Accept", "text/csv")] (some (.js (.obj [("a", .num 1)])))).lookup "Accept" =
      some "text/csv" ∧
    (buildHeaders [("Accept", "text/csv")]
        (some (.js (.obj [("a", .num 1)])))).lookup "Content-Type" =
      some "application/json" ∧
    (buildHeaders [] none).lookup "Accept" = some "application/json" ∧
    (buildHeaders [] none).lookup "Content-Type" = none := by
  have h1 := header_composition defaultBaseUrl "/t" "POST" [("Accept", "text/csv")]
    (some (.js (.obj [("a", .num 1)]))) none
  have h2 := header_composition defaultBaseUrl "/t" "GET" [] none none
  refine ⟨?_, ?_, ?_, ?_⟩
  · rw [h1.2.1]
    decide
  · exact h1.2.2.1 (by decide)
  · rw [h2.2.1]
    decide
  · rw [h2.2.2.2 (by decide)]
    decide
